import Mathlib

/-!
# Bloom: shallow embedding of the bloom-classification core

Shallow embedding of the bloom forecasting/classification repository
(`bloom-classification` service, NASA NDVI service, data cache, batch
orchestrator, map-component classifier), with JavaScript number arithmetic
modelled over `ℚ` and `Math.round` as `⌊x + 1/2⌋` (JS rounds half toward +∞).
-/

namespace Bloom

/-- JS `Math.round`: round half toward positive infinity. -/
def jsRound (x : ℚ) : ℤ := ⌊x + 1/2⌋

/-- JS `Math.max` on two numbers. -/
def jsMax (a b : ℚ) : ℚ := if a ≤ b then b else a

/-- JS `Math.abs`. -/
def jsAbs (x : ℚ) : ℚ := if x < 0 then -x else x

lemma jsMax_eq_max (a b : ℚ) : jsMax a b = max a b := (max_def a b).symm

lemma jsAbs_eq_abs (x : ℚ) : jsAbs x = |x| := by
  unfold jsAbs
  split_ifs with h
  · exact (abs_of_neg h).symm
  · exact (abs_of_nonneg (not_lt.mp h)).symm

/-- The four seasons, the `season` string argument of the services. -/
inductive Season
  | Spring | Summer | Autumn | Winter
  deriving DecidableEq, Repr

/-- The four bloom levels returned by `classifyBloomIntensity`
(strings `'Dormant'`, `'Low Bloom'`, `'Active Bloom'`, `'Peak Bloom'`). -/
inductive BloomLevel
  | Dormant | LowBloom | ActiveBloom | PeakBloom
  deriving DecidableEq, Repr

/-- Rank of a bloom level under the order
`Dormant < Low Bloom < Active Bloom < Peak Bloom`. -/
def BloomLevel.rank : BloomLevel → Nat
  | .Dormant => 0
  | .LowBloom => 1
  | .ActiveBloom => 2
  | .PeakBloom => 3

/-- The four per-level thresholds of the classifier. -/
structure Thresholds where
  dormant : ℚ
  low : ℚ
  active : ℚ
  peak : ℚ
  deriving DecidableEq, Repr

/-- Source function `calculateConfidence(ndvi, threshold)` from the bloom-classification
service: `Math.round(Math.max(0.6, 1 - |ndvi - threshold| * 2) * 100)`. -/
def calculateConfidence (ndvi threshold : ℚ) : ℤ :=
  let distance := jsAbs (ndvi - threshold)
  let confidence := jsMax (6/10) (1 - distance * 2)
  jsRound (confidence * 100)

/-- Result record of `classifyBloomIntensity` (the bloom-classification
service); the `ndviRange` display string is omitted (pure formatting). -/
structure Classification where
  level : BloomLevel
  intensity : String
  color : String
  confidence : ℤ
  deriving DecidableEq, Repr

/-- Source table `baseThresholds` of `classifyBloomIntensity`. -/
def baseThresholds : Thresholds :=
  { dormant := 3/10, low := 5/10, active := 7/10, peak := 8/10 }

/-- Source table `seasonalAdjustments` of `classifyBloomIntensity`. -/
def seasonalAdjustments : Season → Thresholds
  | .Spring => { dormant := -1/10, low := -5/100, active := 0, peak := 5/100 }
  | .Summer => { dormant := 0, low := 0, active := 5/100, peak := 1/10 }
  | .Autumn => { dormant := 0, low := 0, active := 0, peak := 0 }
  | .Winter => { dormant := 1/10, low := 5/100, active := -5/100, peak := -1/10 }

/-- The adjusted thresholds computed inside `classifyBloomIntensity`:
base + seasonal adjustment + latitude adjustment, clamped from below. -/
def adjustedThresholds (season : Season) (latitude : ℚ) : Thresholds :=
  let latitudeAdjustment : ℚ := if jsAbs latitude < 47/2 then 1/10 else 0
  let adjustments := seasonalAdjustments season
  { dormant := jsMax (1/10) (baseThresholds.dormant + adjustments.dormant + latitudeAdjustment)
    low := jsMax (2/10) (baseThresholds.low + adjustments.low + latitudeAdjustment)
    active := jsMax (3/10) (baseThresholds.active + adjustments.active + latitudeAdjustment)
    peak := jsMax (4/10) (baseThresholds.peak + adjustments.peak + latitudeAdjustment) }

/-- Source function `classifyBloomIntensity(ndvi, season, latitude)` from the
bloom-classification service: season- and latitude-adjusted thresholds,
tested in order peak, active, low, else Dormant. -/
def classifyBloomIntensity (ndvi : ℚ) (season : Season) (latitude : ℚ) :
    Classification :=
  let thresholds := adjustedThresholds season latitude
  if ndvi ≥ thresholds.peak then
    { level := .PeakBloom, intensity := "Very High", color := "#10B981"
      confidence := calculateConfidence ndvi thresholds.peak }
  else if ndvi ≥ thresholds.active then
    { level := .ActiveBloom, intensity := "High", color := "#34D399"
      confidence := calculateConfidence ndvi thresholds.active }
  else if ndvi ≥ thresholds.low then
    { level := .LowBloom, intensity := "Medium", color := "#FBBF24"
      confidence := calculateConfidence ndvi thresholds.low }
  else
    { level := .Dormant, intensity := "Low", color := "#6B7280"
      confidence := calculateConfidence ndvi (1/10) }

/-! ## Spec-side restatement of the threshold algorithm (for C1)

The definitions below follow the wording of the specification (§4.3), to be
compared against the source embedding `classifyBloomIntensity` above. -/

/-- Spec §4.3 seasonal delta table, in field order dormant/low/active/peak:
Spring {-0.10,-0.05,0,+0.05}; Summer {0,0,+0.05,+0.10}; Autumn {0,0,0,0};
Winter {+0.10,+0.05,-0.05,-0.10}. -/
def specSeasonalDelta : Season → Thresholds
  | .Spring => ⟨-10/100, -5/100, 0, 5/100⟩
  | .Summer => ⟨0, 0, 5/100, 10/100⟩
  | .Autumn => ⟨0, 0, 0, 0⟩
  | .Winter => ⟨10/100, 5/100, -5/100, -10/100⟩

/-- Spec §4.3 threshold arithmetic: base values 0.30/0.50/0.70/0.80,
plus seasonal delta, plus 0.10 when `|latitude| < 23.5` else 0, each result
clamped from below via max at 0.10/0.20/0.30/0.40 respectively. -/
def specThresholds (season : Season) (latitude : ℚ) : Thresholds :=
  let delta := specSeasonalDelta season
  let latDelta : ℚ := if |latitude| < 235/10 then 10/100 else 0
  ⟨max (10/100) (30/100 + delta.dormant + latDelta),
   max (20/100) (50/100 + delta.low + latDelta),
   max (30/100) (70/100 + delta.active + latDelta),
   max (40/100) (80/100 + delta.peak + latDelta)⟩

/-- Spec §4.3 level selection: the highest threshold the index meets or
exceeds, tested in order peak → active → low → else Dormant. -/
def specLevel (ndvi : ℚ) (season : Season) (latitude : ℚ) : BloomLevel :=
  let t := specThresholds season latitude
  if ndvi ≥ t.peak then .PeakBloom
  else if ndvi ≥ t.active then .ActiveBloom
  else if ndvi ≥ t.low then .LowBloom
  else .Dormant

/-- The thresholds computed by the source agree with the spec's arithmetic. -/
lemma adjustedThresholds_eq_specThresholds (season : Season) (latitude : ℚ) :
    adjustedThresholds season latitude = specThresholds season latitude := by
  have h235 : (235/10 : ℚ) = 47/2 := by norm_num
  cases season <;>
    · unfold adjustedThresholds specThresholds
      dsimp only
      rw [h235, jsAbs_eq_abs]
      split_ifs <;>
        · simp [jsMax, max_def, baseThresholds, seasonalAdjustments,
            specSeasonalDelta]
          norm_num

/-- The classifier's level is the if-chain over its adjusted thresholds. -/
lemma classify_level_eq (ndvi : ℚ) (season : Season) (latitude : ℚ) :
    (classifyBloomIntensity ndvi season latitude).level =
      (let t := adjustedThresholds season latitude
       if ndvi ≥ t.peak then BloomLevel.PeakBloom
       else if ndvi ≥ t.active then BloomLevel.ActiveBloom
       else if ndvi ≥ t.low then BloomLevel.LowBloom
       else BloomLevel.Dormant) := by
  unfold classifyBloomIntensity
  dsimp only
  split_ifs <;> rfl

/-- C1: the classifier computes the four thresholds exactly as the spec's
arithmetic describes (base + seasonal delta + tropical adjustment, clamped
from below at 0.10/0.20/0.30/0.40), and returns the level of the highest
threshold met, tested in order peak, active, low, else Dormant. -/
theorem classify_follows_spec_threshold_arithmetic
    (ndvi : ℚ) (season : Season) (latitude : ℚ) :
    adjustedThresholds season latitude = specThresholds season latitude ∧
    (classifyBloomIntensity ndvi season latitude).level =
      specLevel ndvi season latitude := by
  refine ⟨adjustedThresholds_eq_specThresholds season latitude, ?_⟩
  rw [classify_level_eq, specLevel,
    adjustedThresholds_eq_specThresholds season latitude]

/-- Value of the adjusted threshold table for Summer in the tropics. -/
lemma adjustedThresholds_summer_lat10 :
    adjustedThresholds Season.Summer 10 = ⟨4/10, 6/10, 85/100, 1⟩ := by
  unfold adjustedThresholds jsMax jsAbs baseThresholds seasonalAdjustments
  norm_num

/-- C2 counterexample: `classifyBloomIntensity(0.85, Summer, 10)` does not
return Peak Bloom — the adjusted peak threshold is
max(0.40, 0.80 + 0.10 + 0.10) = 1.00 and 0.85 < 1.00. -/
theorem classify_085_summer_lat10_not_peak :
    (classifyBloomIntensity (85/100) Season.Summer 10).level ≠
      BloomLevel.PeakBloom := by
  rw [classify_level_eq]
  rw [adjustedThresholds_summer_lat10]
  norm_num
  decide

/-- C2 amended: `classifyBloomIntensity(0.85, Summer, 10)` returns Active
Bloom — the adjusted active threshold is max(0.30, 0.70 + 0.05 + 0.10) = 0.85,
met exactly, while the peak threshold 1.00 is not met. -/
theorem classify_085_summer_lat10_is_active :
    (classifyBloomIntensity (85/100) Season.Summer 10).level =
      BloomLevel.ActiveBloom := by
  rw [classify_level_eq]
  rw [adjustedThresholds_summer_lat10]
  norm_num

/-- C3: for fixed season and latitude, the bloom level never regresses as the
index rises: for all `a ≤ b` in `[0,1]` the level at `a` is at most the level
at `b` under Dormant < Low Bloom < Active Bloom < Peak Bloom. -/
theorem classify_level_monotone (season : Season) (latitude : ℚ) (a b : ℚ)
    (ha : 0 ≤ a) (hab : a ≤ b) (hb : b ≤ 1) :
    ((classifyBloomIntensity a season latitude).level).rank ≤
      ((classifyBloomIntensity b season latitude).level).rank := by
  rw [classify_level_eq, classify_level_eq]
  dsimp only
  split_ifs <;> simp [BloomLevel.rank] <;> linarith

/-- Witness for C3 at season Spring, latitude 30, a = 0.2, b = 0.8. -/
theorem classify_level_monotone_witness :
    (0:ℚ) ≤ 2/10 ∧ (2/10:ℚ) ≤ 8/10 ∧ (8/10:ℚ) ≤ 1 ∧
    ((classifyBloomIntensity (2/10) Season.Spring 30).level).rank ≤
      ((classifyBloomIntensity (8/10) Season.Spring 30).level).rank :=
  ⟨by norm_num, by norm_num, by norm_num,
    classify_level_monotone Season.Spring 30 (2/10) (8/10)
      (by norm_num) (by norm_num) (by norm_num)⟩

/-! ## The second copy of the classifier (map component, for C4) -/

/-- Result record of the map component's `classifyBloomIntensity`
(`WorldMapSection.jsx`); display strings omitted. -/
structure MapClassification where
  level : BloomLevel
  color : String
  confidence : ℤ
  deriving DecidableEq, Repr

/-- The per-season threshold table of the map component's classifier
(no latitude adjustment, no clamping). -/
def mapThresholds : Season → Thresholds
  | .Spring => ⟨3/10, 5/10, 7/10, 8/10⟩
  | .Summer => ⟨4/10, 6/10, 8/10, 85/100⟩
  | .Autumn => ⟨3/10, 5/10, 7/10, 8/10⟩
  | .Winter => ⟨2/10, 4/10, 6/10, 7/10⟩

/-- Source function `classifyBloomIntensity(ndvi, season, latitude)` from
`WorldMapSection.jsx`: thresholds vary only per season, confidence is
`Math.round((ndvi / t.peak) * 100)`, latitude is ignored. -/
def mapClassifyBloomIntensity (ndvi : ℚ) (season : Season) (latitude : ℚ) :
    MapClassification :=
  let t := mapThresholds season
  let confidence := jsRound (ndvi / t.peak * 100)
  if ndvi ≥ t.peak then ⟨.PeakBloom, "#10B981", confidence⟩
  else if ndvi ≥ t.active then ⟨.ActiveBloom, "#34D399", confidence⟩
  else if ndvi ≥ t.low then ⟨.LowBloom, "#FBBF24", confidence⟩
  else ⟨.Dormant, "#6B7280", confidence⟩

/-- C4: the two copies of the classification algorithm are not extensionally
equal: at ndvi 0.75, Spring, latitude 10 the service copy returns Low Bloom
(low threshold 0.55, active threshold 0.80) while the map copy returns Active
Bloom (active threshold 0.70). -/
theorem duplicated_classifiers_disagree :
    ∃ (ndvi latitude : ℚ) (season : Season),
      (mapClassifyBloomIntensity ndvi season latitude).level ≠
        (classifyBloomIntensity ndvi season latitude).level := by
  refine ⟨75/100, 10, Season.Spring, ?_⟩
  rw [classify_level_eq]
  have hadj : adjustedThresholds Season.Spring 10 = ⟨3/10, 55/100, 8/10, 95/100⟩ := by
    unfold adjustedThresholds jsMax jsAbs baseThresholds seasonalAdjustments
    norm_num
  rw [hadj]
  norm_num [mapClassifyBloomIntensity, mapThresholds]
  decide

/-! ## NASA MODIS NDVI service (nasaApi): season resolution and fallback -/

/-- JS `Math.min` on two numbers. -/
def jsMin (a b : ℚ) : ℚ := if a ≤ b then a else b

/-- Calendar months, the value of `new Date().getMonth() + 1` (1–12). -/
inductive Month
  | jan | feb | mar | apr | may | jun | jul | aug | sep | oct | nov | dec
  deriving DecidableEq, Repr

/-- Season phases assigned by `getSeasonForLocation`. -/
inductive Phase
  | Early | Mid | Late
  deriving DecidableEq, Repr

/-- The `{ name, phase }` object returned by `getSeasonForLocation`. -/
structure SeasonCtx where
  name : Season
  phase : Phase
  deriving DecidableEq, Repr

/-- The northern-hemisphere branch of `getSeasonForLocation`'s switch. -/
def northCtx : Month → SeasonCtx
  | .dec => ⟨.Winter, .Early⟩
  | .jan => ⟨.Winter, .Mid⟩
  | .feb => ⟨.Winter, .Late⟩
  | .mar => ⟨.Spring, .Early⟩
  | .apr => ⟨.Spring, .Mid⟩
  | .may => ⟨.Spring, .Late⟩
  | .jun => ⟨.Summer, .Early⟩
  | .jul => ⟨.Summer, .Mid⟩
  | .aug => ⟨.Summer, .Late⟩
  | .sep => ⟨.Autumn, .Early⟩
  | .oct => ⟨.Autumn, .Mid⟩
  | .nov => ⟨.Autumn, .Late⟩

/-- The southern-hemisphere branch of `getSeasonForLocation`'s switch
(seasons are opposite). -/
def southCtx : Month → SeasonCtx
  | .dec => ⟨.Summer, .Early⟩
  | .jan => ⟨.Summer, .Mid⟩
  | .feb => ⟨.Summer, .Late⟩
  | .mar => ⟨.Autumn, .Early⟩
  | .apr => ⟨.Autumn, .Mid⟩
  | .may => ⟨.Autumn, .Late⟩
  | .jun => ⟨.Winter, .Early⟩
  | .jul => ⟨.Winter, .Mid⟩
  | .aug => ⟨.Winter, .Late⟩
  | .sep => ⟨.Spring, .Early⟩
  | .oct => ⟨.Spring, .Mid⟩
  | .nov => ⟨.Spring, .Late⟩

/-- Source function `getSeasonForLocation(lat, lon)` from the NASA NDVI service, with the
wall-clock month made explicit: `isNorthernHemisphere = lat > 0` selects the
table (longitude is unused by the source). -/
def getSeasonForLocation (lat : ℚ) (month : Month) : SeasonCtx :=
  if 0 < lat then northCtx month else southCtx month

/-- Source function `getSeasonalNDVI(season, lat)`: per-season hemisphere-asymmetric baseline,
clamped to `[0.1, 0.9]` via `Math.max(0.1, Math.min(0.9, v))`. -/
def getSeasonalNDVI (season : SeasonCtx) (lat : ℚ) : ℚ :=
  let v : ℚ :=
    match season.name with
    | .Winter => 2/10 + (if 0 < lat then 1/10 else 3/10)
    | .Spring => 4/10 + (if 0 < lat then 2/10 else 1/10)
    | .Summer => 7/10 + (if 0 < lat then 1/10 else -1/10)
    | .Autumn => 5/10 + (if 0 < lat then 1/10 else 2/10)
  jsMax (1/10) (jsMin (9/10) v)

/-- A `VegetationObservation` as produced by the NASA NDVI service;
the `date` ISO string is omitted (wall-clock formatting only). -/
structure Observation where
  latitude : ℚ
  longitude : ℚ
  ndvi : ℚ
  ndviAnomaly : ℚ
  confidence : ℚ
  source : String
  season : Season
  seasonPhase : Phase
  deriving DecidableEq, Repr

/-- Source function `generateFallbackNDVI(lat, lon)`: seasonal baseline, zero anomaly, fixed
confidence 0.6, source tag `'Fallback'`. -/
def generateFallbackNDVI (lat lon : ℚ) (month : Month) : Observation :=
  let season := getSeasonForLocation lat month
  let baseNDVI := getSeasonalNDVI season lat
  { latitude := lat, longitude := lon, ndvi := baseNDVI, ndviAnomaly := 0
    confidence := 6/10, source := "Fallback"
    season := season.name, seasonPhase := season.phase }

/-- Source function `fetchNDVIData(latitude, longitude)`: the underlying fetch outcome is
explicit; the catch branch substitutes the fallback generator's observation. -/
def fetchNDVIData (latitude longitude : ℚ) (month : Month)
    (fetched : Except String Observation) : Observation :=
  match fetched with
  | .ok r => r
  | .error _ => generateFallbackNDVI latitude longitude month

/-- The `[0.1, 0.9]` clamp really bounds its result. -/
lemma clamp_bounds (v : ℚ) :
    1/10 ≤ jsMax (1/10) (jsMin (9/10) v) ∧
      jsMax (1/10) (jsMin (9/10) v) ≤ 9/10 := by
  unfold jsMax jsMin
  split_ifs <;> constructor <;> linarith

/-- C5: when the underlying fetch throws, `fetchNDVIData` returns the
fallback generator's observation instead of propagating the error, and that
observation always has index value in `[0.1, 0.9]`, confidence 0.6 (below
0.85), and source tag `'Fallback'`. -/
theorem fetch_error_recovers_with_fallback (lat lon : ℚ) (month : Month)
    (e : String) :
    fetchNDVIData lat lon month (Except.error e) =
        generateFallbackNDVI lat lon month ∧
      1/10 ≤ (generateFallbackNDVI lat lon month).ndvi ∧
      (generateFallbackNDVI lat lon month).ndvi ≤ 9/10 ∧
      (generateFallbackNDVI lat lon month).confidence = 6/10 ∧
      (generateFallbackNDVI lat lon month).confidence < 85/100 ∧
      (generateFallbackNDVI lat lon month).source = "Fallback" := by
  refine ⟨rfl, (clamp_bounds _).1, (clamp_bounds _).2, rfl, ?_, rfl⟩
  show (6/10 : ℚ) < 85/100
  norm_num

/-- C8 counterexample: at latitude exactly 0 the resolver does not use the
northern month-to-season table — in January it reports Summer (southern
table), while the northern table maps January to Winter. -/
theorem lat_zero_not_northern_table :
    getSeasonForLocation 0 Month.jan ≠ northCtx Month.jan := by
  unfold getSeasonForLocation
  norm_num [northCtx, southCtx]
  decide

/-- C8 amended: the hemisphere test is `lat > 0`, so every strictly positive
latitude uses the northern table and every latitude `≤ 0` — including exactly
0 — uses the southern table. -/
theorem hemisphere_table_selection (lat : ℚ) (month : Month) :
    (0 < lat → getSeasonForLocation lat month = northCtx month) ∧
      (lat ≤ 0 → getSeasonForLocation lat month = southCtx month) ∧
      getSeasonForLocation 0 month = southCtx month := by
  unfold getSeasonForLocation
  refine ⟨fun h => if_pos h, fun h => if_neg (not_lt.mpr h), ?_⟩
  norm_num

/-- Witness for C8's amended statement at latitudes 5 and −5, January. -/
theorem hemisphere_table_selection_witness :
    ((0:ℚ) < 5 ∧ getSeasonForLocation 5 Month.jan = northCtx Month.jan) ∧
      ((-5:ℚ) ≤ 0 ∧ getSeasonForLocation (-5) Month.jan = southCtx Month.jan) :=
  ⟨⟨by norm_num, (hemisphere_table_selection 5 Month.jan).1 (by norm_num)⟩,
   ⟨by norm_num, (hemisphere_table_selection (-5) Month.jan).2.1 (by norm_num)⟩⟩

/-! ## Data caching service (dataCache): TTL semantics -/

/-- The cache data types, the keys of `CACHE_DURATION`. -/
inductive DataType
  | NDVI | PHENOLOGY | IMAGES | LOCATIONS
  deriving DecidableEq, Repr

/-- Source table `CACHE_DURATION` in milliseconds: NDVI 7 days, phenology 14 days,
images 30 days, composed location answer 90 days. -/
def CACHE_DURATION : DataType → ℤ
  | .NDVI => 7 * 24 * 60 * 60 * 1000
  | .PHENOLOGY => 14 * 24 * 60 * 60 * 1000
  | .IMAGES => 30 * 24 * 60 * 60 * 1000
  | .LOCATIONS => 90 * 24 * 60 * 60 * 1000

/-- A cache key: the string `` `${dataType}_${lat3}_${lon3}` `` is determined
by (and determines) this triple of data-type tag and the two coordinates
rounded to 3 decimals. -/
structure CacheKey where
  dataType : DataType
  lat3 : ℚ
  lon3 : ℚ
  deriving DecidableEq, Repr

/-- Source function `generateKey(latitude, longitude, dataType)`:
`Math.round(coord * 1000) / 1000` on each coordinate. -/
def generateKey (latitude longitude : ℚ) (dataType : DataType) : CacheKey :=
  { dataType := dataType
    lat3 := (jsRound (latitude * 1000) : ℚ) / 1000
    lon3 := (jsRound (longitude * 1000) : ℚ) / 1000 }

/-- A cache entry as written by `DataCache.set`:
`{ data, timestamp, dataType, hits, lastAccessed }`. -/
structure CacheEntry (α : Type) where
  data : α
  timestamp : ℤ
  dataType : DataType
  hits : ℕ
  lastAccessed : ℤ
  deriving DecidableEq, Repr

/-- The `DataCache` class: its `Map` keyed by cache key (the `localStorage`
persistence mirror is I/O and not modelled). -/
structure DataCache (α : Type) where
  cache : CacheKey → Option (CacheEntry α)

/-- Source method `DataCache.isCacheValid(key, dataType)`, with `Date.now()` explicit:
an entry is valid iff present and `now - timestamp < duration`. -/
def DataCache.isCacheValid (c : DataCache α) (key : CacheKey)
    (dataType : DataType) (now : ℤ) : Bool :=
  match c.cache key with
  | none => false
  | some cached => decide (now - cached.timestamp < CACHE_DURATION dataType)

/-- Source method `DataCache.get(key, dataType)`, with `Date.now()` explicit: returns the
stored data (bumping `hits`/`lastAccessed`) when valid, otherwise deletes the
key and returns null. Result is (returned value, cache after the call). -/
def DataCache.get (c : DataCache α) (key : CacheKey) (dataType : DataType)
    (now : ℤ) : Option α × DataCache α :=
  if c.isCacheValid key dataType now then
    match c.cache key with
    | some cached =>
        (some cached.data,
         ⟨fun k => if k = key then
            some { cached with hits := cached.hits + 1, lastAccessed := now }
          else c.cache k⟩)
    | none => (none, c)
  else
    (none, ⟨fun k => if k = key then none else c.cache k⟩)

/-- Source method `DataCache.set(key, data, dataType)`, with `Date.now()` explicit. -/
def DataCache.set (c : DataCache α) (key : CacheKey) (data : α)
    (dataType : DataType) (now : ℤ) : DataCache α :=
  ⟨fun k => if k = key then
      some { data := data, timestamp := now, dataType := dataType
             hits := 0, lastAccessed := now }
    else c.cache k⟩

/-- Source function `getCachedLocationData(latitude, longitude)`. -/
def getCachedLocationData (c : DataCache α) (latitude longitude : ℚ)
    (now : ℤ) : Option α × DataCache α :=
  c.get (generateKey latitude longitude .LOCATIONS) .LOCATIONS now

/-- Source function `cacheLocationData(latitude, longitude, bloomStatus)`. -/
def cacheLocationData (c : DataCache α) (latitude longitude : ℚ)
    (bloomStatus : α) (now : ℤ) : DataCache α :=
  c.set (generateKey latitude longitude .LOCATIONS) bloomStatus .LOCATIONS now

/-- The cache-policy skeleton of `BloomDataService.getBloomData`: with
`forceRefresh=false`, answer from the location cache when `get` yields a hit,
else compute fresh and write through. `fresh` abstracts `fetchBloomData`'s
result; the returned Bool records whether the answer came from the cache. -/
def getBloomData (c : DataCache α) (latitude longitude : ℚ) (now : ℤ)
    (forceRefresh : Bool) (fresh : α) : α × Bool × DataCache α :=
  if forceRefresh = false then
    let p := getCachedLocationData c latitude longitude now
    match p.1 with
    | some cachedData => (cachedData, true, p.2)
    | none =>
        (fresh, false, cacheLocationData p.2 latitude longitude fresh now)
  else
    (fresh, false, cacheLocationData c latitude longitude fresh now)

/-- Validity of a cache entry, unfolded. -/
lemma isCacheValid_iff (c : DataCache α) (key : CacheKey)
    (dataType : DataType) (now : ℤ) :
    c.isCacheValid key dataType now = true ↔
      ∃ e, c.cache key = some e ∧
        now - e.timestamp < CACHE_DURATION dataType := by
  unfold DataCache.isCacheValid
  cases h : c.cache key <;> simp [h]

/-- A `get` hit returns exactly the data of an unexpired stored entry. -/
lemma get_fst_eq_some_iff (c : DataCache α) (key : CacheKey)
    (dataType : DataType) (now : ℤ) (d : α) :
    (c.get key dataType now).1 = some d ↔
      ∃ e, c.cache key = some e ∧ e.data = d ∧
        now - e.timestamp < CACHE_DURATION dataType := by
  unfold DataCache.get
  by_cases hv : c.isCacheValid key dataType now
  · rcases (isCacheValid_iff c key dataType now).mp hv with ⟨e, he, ht⟩
    rw [if_pos hv, he]
    simp only [Prod.fst]
    constructor
    · rintro h
      exact ⟨e, rfl, by simpa using h, ht⟩
    · rintro ⟨e', he', hd, _⟩
      obtain rfl : e = e' := by simpa [he] using he'
      simpa using hd.symm ▸ rfl
  · rw [if_neg hv]
    simp only [Prod.fst]
    constructor
    · rintro ⟨⟩
    · rintro ⟨e, he, hd, ht⟩
      exact absurd ((isCacheValid_iff c key dataType now).mpr ⟨e, he, ht⟩) hv

/-- A `get` on an expired entry misses and deletes the entry. -/
lemma get_expired (c : DataCache α) (key : CacheKey) (dataType : DataType)
    (now : ℤ) (e : CacheEntry α) (he : c.cache key = some e)
    (ht : ¬ now - e.timestamp < CACHE_DURATION dataType) :
    (c.get key dataType now).1 = none ∧
      (c.get key dataType now).2.cache key = none := by
  have hv : ¬ c.isCacheValid key dataType now = true := by
    rw [isCacheValid_iff]
    rintro ⟨e', he', ht'⟩
    obtain rfl : e = e' := by simpa [he] using he'
    exact ht ht'
  unfold DataCache.get
  rw [if_neg hv]
  exact ⟨rfl, by simp⟩

/-- C6: the TTL table is 7/14/30/90 days; `get` returns a stored entry only
when `now − timestamp` is strictly below the type's TTL; an expired entry is
deleted and null returned; hence `getBloomData` with `forceRefresh=false`
never answers from a TTL-expired location entry. -/
theorem cache_never_serves_expired (α : Type) (c : DataCache α)
    (key : CacheKey) (dataType : DataType) (now : ℤ) :
    (CACHE_DURATION .NDVI = 604800000 ∧
      CACHE_DURATION .PHENOLOGY = 1209600000 ∧
      CACHE_DURATION .IMAGES = 2592000000 ∧
      CACHE_DURATION .LOCATIONS = 7776000000) ∧
    (∀ d : α, (c.get key dataType now).1 = some d ↔
      ∃ e, c.cache key = some e ∧ e.data = d ∧
        now - e.timestamp < CACHE_DURATION dataType) ∧
    (∀ e : CacheEntry α, c.cache key = some e →
      ¬ now - e.timestamp < CACHE_DURATION dataType →
      (c.get key dataType now).1 = none ∧
        (c.get key dataType now).2.cache key = none) ∧
    (∀ (latitude longitude : ℚ) (fresh : α),
      (getBloomData c latitude longitude now false fresh).2.1 = true →
      ∃ e, c.cache (generateKey latitude longitude .LOCATIONS) = some e ∧
        now - e.timestamp < CACHE_DURATION .LOCATIONS ∧
        (getBloomData c latitude longitude now false fresh).1 = e.data) := by
  refine ⟨⟨rfl, rfl, rfl, rfl⟩, fun d => get_fst_eq_some_iff c key dataType now d,
    fun e he ht => get_expired c key dataType now e he ht, ?_⟩
  intro latitude longitude fresh hserved
  unfold getBloomData at hserved ⊢
  rw [if_pos rfl] at hserved ⊢
  dsimp only at hserved ⊢
  cases hres : (getCachedLocationData c latitude longitude now).1 with
  | none =>
      rw [hres] at hserved
      dsimp only at hserved
      exact Bool.noConfusion hserved
  | some cachedData =>
      rw [hres] at hserved
      dsimp only at hserved ⊢
      have hres' : (DataCache.get c (generateKey latitude longitude .LOCATIONS)
          .LOCATIONS now).1 = some cachedData := hres
      rcases (get_fst_eq_some_iff c (generateKey latitude longitude .LOCATIONS)
          .LOCATIONS now cachedData).mp hres' with ⟨e, he, hd, ht⟩
      exact ⟨e, he, ht, hd.symm⟩

/-- Witness for C6: a one-entry cache whose NDVI entry, written at time 0,
is read back at time 0 and found expired at exactly the 7-day TTL. -/
theorem cache_never_serves_expired_witness :
    ((DataCache.get (α := ℕ)
        ⟨fun k => if k = ⟨DataType.NDVI, 1, 2⟩ then
            some ⟨42, 0, DataType.NDVI, 0, 0⟩ else none⟩
        ⟨DataType.NDVI, 1, 2⟩ DataType.NDVI 604800000).1 = none ∧
      (DataCache.get (α := ℕ)
        ⟨fun k => if k = ⟨DataType.NDVI, 1, 2⟩ then
            some ⟨42, 0, DataType.NDVI, 0, 0⟩ else none⟩
        ⟨DataType.NDVI, 1, 2⟩ DataType.NDVI 604800000).2.cache
          ⟨DataType.NDVI, 1, 2⟩ = none) :=
  (cache_never_serves_expired ℕ
    ⟨fun k => if k = ⟨DataType.NDVI, 1, 2⟩ then
        some ⟨42, 0, DataType.NDVI, 0, 0⟩ else none⟩
    ⟨DataType.NDVI, 1, 2⟩ DataType.NDVI 604800000).2.2.1
    ⟨42, 0, DataType.NDVI, 0, 0⟩ (by simp) (by norm_num [CACHE_DURATION])

/-! ## Batch orchestration (`BloomDataService.getBatchBloomData`, for C7) -/

/-- One result slot of the batch call:
`{ location, data: value-or-null, error: reason-or-null }`. -/
structure BatchSlot (L D E : Type) where
  location : L
  data : Option D
  error : Option E
  deriving DecidableEq, Repr

/-- The slot built from one settled per-point outcome:
`data = result.value` on fulfilled, `error = result.reason` on rejected. -/
def settledSlot (loc : L) (result : Except E D) : BatchSlot L D E :=
  { location := loc
    data := match result with | .ok v => some v | .error _ => none
    error := match result with | .error e => some e | .ok _ => none }

/-- Source function `getBatchBloomData(locations)`: `Promise.allSettled` over the per-point
computation (here the explicit `getBloom`, each outcome an `Except`), then
`results.map((result, index) => ({location: locations[index], ...}))`. -/
def getBatchBloomData [Inhabited L] (getBloom : L → Except E D)
    (locations : List L) : List (BatchSlot L D E) :=
  let results := locations.map getBloom
  results.mapIdx (fun index result =>
    settledSlot (locations.getD index default) result)

/-- C7: the batch returns exactly one slot per input location, in input
order; a failing point yields `data = null` with its reason in `error`, a
succeeding point carries its value; the batch itself is total, never failing
because some points failed. -/
theorem batch_returns_per_point_slots (L D E : Type) [Inhabited L]
    (getBloom : L → Except E D) (locations : List L) :
    (getBatchBloomData getBloom locations).length = locations.length ∧
      getBatchBloomData getBloom locations =
        locations.map (fun loc => settledSlot loc (getBloom loc)) := by
  have hlen : (getBatchBloomData getBloom locations).length =
      locations.length := by
    unfold getBatchBloomData
    simp
  refine ⟨hlen, ?_⟩
  apply List.ext_getElem
  · simpa using hlen
  · intro i h1 h2
    unfold getBatchBloomData
    simp only [List.getElem_mapIdx, List.getElem_map]
    congr 1
    have hi : i < locations.length := by simpa using h2
    rw [List.getD_eq_getElem?_getD, List.getElem?_eq_getElem hi]
    rfl

/-! ## Forecast engine (backend, for C9) -/

/-- Mean of a list of rationals (0 for the empty list, since `x / 0 = 0`). -/
def listMean (l : List ℚ) : ℚ := l.sum / (l.length : ℚ)

/-- One forecast point: `{target_month, predicted_index, lower_bound,
upper_bound}` plus the low-confidence tag of degraded forecasts. -/
structure ForecastPoint where
  targetMonth : ℕ
  predictedIndex : ℚ
  lowerBound : ℚ
  upperBound : ℚ
  lowConfidence : Bool
  deriving DecidableEq, Repr

/-- Modelled from the spec: the ForecastEngine is the backend ML forecasting
service (FastAPI + Prophet, `bloom_forecast_model.pkl`), whose code is not in
the frontend sources; modelled from §4.4: empty history returns an empty
sequence; fewer than 2 distinct points returns a flat low-confidence forecast
repeating the last known value; otherwise an additive decomposition into a
linear trend plus a repeating 12-month seasonal component, extrapolated for
the next `months` months, with the uncertainty band derived from in-sample
residual variance scaled by the forecast horizon. -/
def forecastEngine (history : List ℚ) (months : ℕ) : List ForecastPoint :=
  match history with
  | [] => []
  | h :: t =>
    if (h :: t).dedup.length < 2 then
      let lastVal := (h :: t).getLast (List.cons_ne_nil h t)
      (List.range months).map (fun j =>
        { targetMonth := j + 1, predictedIndex := lastVal
          lowerBound := lastVal, upperBound := lastVal, lowConfidence := true })
    else
      let vals := h :: t
      let m := vals.length
      let positions := (List.range m).map (fun i => (i : ℚ))
      let posMean := listMean positions
      let valMean := listMean vals
      let pairs := positions.zip vals
      let slope := ((pairs.map (fun p => (p.1 - posMean) * (p.2 - valMean))).sum) /
        ((positions.map (fun x => (x - posMean) ^ 2)).sum)
      let intercept := valMean - slope * posMean
      let residuals := pairs.map (fun p => p.2 - (intercept + slope * p.1))
      let seasonal := fun k : ℕ =>
        listMean (((residuals.zip (List.range m)).filter
          (fun q => q.2 % 12 == k)).map (·.1))
      let residVariance :=
        listMean ((residuals.zip (List.range m)).map
          (fun q => (q.1 - seasonal (q.2 % 12)) ^ 2))
      (List.range months).map (fun j =>
        let pos := m - 1 + (j + 1)
        let central := intercept + slope * (pos : ℚ) + seasonal (pos % 12)
        { targetMonth := j + 1, predictedIndex := central
          lowerBound := central - residVariance * ((j : ℚ) + 1)
          upperBound := central + residVariance * ((j : ℚ) + 1)
          lowConfidence := false })

/-- C9: forecasting is total over every historical series: the empty series
yields an empty forecast sequence (no exception), a series with fewer than 2
distinct points yields a flat forecast repeating the last known value and
tagged low-confidence (not an error), and every non-empty series yields
exactly `months` forecast points. -/
theorem forecast_total_on_degenerate_history :
    (∀ months : ℕ, forecastEngine [] months = []) ∧
      (∀ (h : ℚ) (t : List ℚ) (months : ℕ),
        (h :: t).dedup.length < 2 →
        ∀ p ∈ forecastEngine (h :: t) months,
          p.predictedIndex = (h :: t).getLast (List.cons_ne_nil h t) ∧
            p.lowerBound = p.predictedIndex ∧
            p.upperBound = p.predictedIndex ∧
            p.lowConfidence = true) ∧
      (∀ (h : ℚ) (t : List ℚ) (months : ℕ),
        (forecastEngine (h :: t) months).length = months) := by
  refine ⟨fun months => rfl, ?_, ?_⟩
  · intro h t months hd p hp
    unfold forecastEngine at hp
    dsimp only at hp
    rw [if_pos hd] at hp
    simp only [List.mem_map, List.mem_range] at hp
    obtain ⟨j, _, rfl⟩ := hp
    exact ⟨rfl, rfl, rfl, rfl⟩
  · intro h t months
    unfold forecastEngine
    dsimp only
    split_ifs <;> simp

/-- Witness for C9: the one-point history `[1]` (one distinct value) gives a
flat low-confidence forecast over 2 months. -/
theorem forecast_degenerate_witness :
    ([(1:ℚ)].dedup.length < 2) ∧
      (forecastEngine [(1:ℚ)] 2).all
        (fun p => p.lowConfidence && decide (p.predictedIndex = 1)) = true := by
  refine ⟨by simp, ?_⟩
  rw [List.all_eq_true]
  intro p hp
  obtain ⟨h1, _, _, h4⟩ :=
    forecast_total_on_degenerate_history.2.1 1 [] 2 (by simp) p hp
  have : p.predictedIndex = 1 := h1
  simp [this, h4]

/-! ## Historical comparison (bloom-classification service, for C10) -/

/-- JS `arr.slice(-n)`: the last `n` elements (the whole list when shorter). -/
def lastN (n : ℕ) (l : List ℚ) : List ℚ := l.drop (l.length - n)

/-- Source function `calculateTrend(data)` from the bloom-classification service. (In JS a
zero first element makes `change` infinite; no theorem below relies on the
`first = 0` case, where this `ℚ` embedding yields `change = 0`.) -/
def calculateTrend (data : List ℚ) : String :=
  if data.length < 2 then "Unknown"
  else
    let first := data.headD 0
    let last := data.getLastD 0
    let change := (last - first) / first
    if change > 1/10 then "Increasing"
    else if change < -(1/10) then "Decreasing"
    else "Stable"

/-- Source function `calculatePercentile(value, sortedArray)`: `findIndex` of the first
element `≥ value` (−1 when none), then `round((index / length) * 100)`.
(Used only on non-empty arrays; JS division by a zero length would give
±Infinity while this `ℚ` embedding gives 0.) -/
def calculatePercentile (value : ℚ) (sortedArray : List ℚ) : ℤ :=
  let index : ℤ :=
    match sortedArray.findIdx? (fun v => decide (value ≤ v)) with
    | some i => (i : ℤ)
    | none => -1
  jsRound ((index : ℚ) / (sortedArray.length : ℚ) * 100)

/-- Source function `generateComparisonMessage(trend, percentile)`. -/
def generateComparisonMessage (trend : String) (percentile : Option ℤ) :
    String :=
  match percentile with
  | none => "No comparison available"
  | some p =>
    let trendMessage :=
      if trend = "Increasing" then "blooming activity is increasing"
      else if trend = "Decreasing" then "blooming activity is decreasing"
      else if trend = "Stable" then "blooming activity is stable"
      else "trend is unclear"
    let percentileMessage :=
      if p ≥ 75 then "above average"
      else if p ≤ 25 then "below average"
      else "near average"
    "Current blooming is " ++ percentileMessage ++ " and " ++ trendMessage

/-- One record of the historical series (only `ndvi` is read). -/
structure HistoricalEntry where
  ndvi : ℚ
  deriving DecidableEq, Repr

/-- The current observation passed to `compareWithHistorical`
(only `ndvi` is read). -/
structure CurrentBloom where
  ndvi : ℚ
  deriving DecidableEq, Repr

/-- Result of `compareWithHistorical`; fields absent from the empty-history
early return are `Option`s. -/
structure HistoricalComparison where
  trend : String
  comparison : String
  percentile : Option ℤ
  historicalAverage : Option ℚ
  currentVsAverage : Option ℚ
  deriving DecidableEq, Repr

/-- Source function `compareWithHistorical(currentBloom, historicalData)` from the
bloom-classification service; the JS in-place ascending `sort((a,b) => a-b)`
is modelled by an ascending sort of the mapped ndvi list. -/
def compareWithHistorical (currentBloom : CurrentBloom)
    (historicalData : List HistoricalEntry) : HistoricalComparison :=
  if historicalData.length = 0 then
    { trend := "Unknown", comparison := "No historical data available"
      percentile := none, historicalAverage := none, currentVsAverage := none }
  else
    let currentNDVI := currentBloom.ndvi
    let historicalNDVIs := historicalData.map (·.ndvi)
    let recent := lastN 3 historicalNDVIs
    let trend := calculateTrend recent
    let sortedNDVIs := List.insertionSort (· ≤ ·) historicalNDVIs
    let percentile := calculatePercentile currentNDVI sortedNDVIs
    let comparison := generateComparisonMessage trend (some percentile)
    let avg := historicalNDVIs.sum / (historicalNDVIs.length : ℚ)
    { trend := trend, comparison := comparison, percentile := some percentile
      historicalAverage := some avg
      currentVsAverage := some (currentNDVI - avg) }

/-- C10: on a non-empty history the reported percentile is
`round(100 · i / n)` for `i` the position of the first ascending-sorted
element `≥` the current value (`i = −1` when the current value exceeds every
historical value); concretely, current 0.9 against history {0.1, 0.2} reports
percentile −50, which is not in [0, 100]. -/
theorem historical_percentile_formula :
    (∀ (currentBloom : CurrentBloom) (historicalData : List HistoricalEntry),
      historicalData ≠ [] →
      (compareWithHistorical currentBloom historicalData).percentile =
        some (calculatePercentile currentBloom.ndvi
          (List.insertionSort (· ≤ ·) (historicalData.map (·.ndvi))))) ∧
      (∀ (value : ℚ) (l : List ℚ) (i : ℕ),
        l.findIdx? (fun v => decide (value ≤ v)) = some i →
        calculatePercentile value l = jsRound ((i : ℚ) / (l.length : ℚ) * 100)) ∧
      (∀ (value : ℚ) (l : List ℚ),
        l.findIdx? (fun v => decide (value ≤ v)) = none →
        calculatePercentile value l =
          jsRound ((-1 : ℚ) / (l.length : ℚ) * 100)) ∧
      ((compareWithHistorical ⟨9/10⟩ [⟨1/10⟩, ⟨2/10⟩]).percentile =
          some (-50) ∧
        ¬ ((0:ℤ) ≤ -50 ∧ (-50:ℤ) ≤ 100)) := by
  refine ⟨?_, ?_, ?_, ?_, by norm_num⟩
  · intro currentBloom historicalData h
    unfold compareWithHistorical
    rw [if_neg (by simpa using h)]
  · intro value l i h
    unfold calculatePercentile
    rw [h]
    norm_num
  · intro value l h
    unfold calculatePercentile
    rw [h]
    norm_num
  · show (compareWithHistorical ⟨9/10⟩ [⟨1/10⟩, ⟨2/10⟩]).percentile = some (-50)
    unfold compareWithHistorical
    rw [if_neg (by norm_num)]
    show some (calculatePercentile (9/10)
      (List.insertionSort (· ≤ ·) [1/10, 2/10])) = some (-50)
    have hsort : List.insertionSort (· ≤ ·) [(1:ℚ)/10, 2/10] = [1/10, 2/10] := by
      norm_num [List.insertionSort, List.orderedInsert]
    rw [hsort]
    have hfind : List.findIdx? (fun v => decide ((9:ℚ)/10 ≤ v)) [1/10, 2/10] =
        none := by
      norm_num [List.findIdx?]
    unfold calculatePercentile
    rw [hfind]
    show some (jsRound ((-1 : ℚ) / 2 * 100)) = some (-50)
    unfold jsRound
    norm_num

/-- Witness for C10 at current 0.5 against the one-point history {0.3}. -/
theorem historical_percentile_formula_witness :
    (compareWithHistorical ⟨1/2⟩ [⟨3/10⟩]).percentile =
      some (calculatePercentile (1/2)
        (List.insertionSort (· ≤ ·) (([⟨3/10⟩] : List HistoricalEntry).map (·.ndvi)))) :=
  historical_percentile_formula.1 ⟨1/2⟩ [⟨3/10⟩] (by simp)

end Bloom
